import Mathlib

/-!
Verification of the action guardrail of `multi-agent-guardrails`
(`src/guardrails/action_guardrail.py`).

The Python code works over dynamically typed YAML/JSON-like values, so we
embed the fragment of Python values the guardrail touches (`PyVal`), Python
truthiness, `dict.get`, `in`, `str.upper`, `str.startswith`, `str.endswith`,
and iteration.  Attribute and type errors raised by Python are modelled with
`Except String`, so an evaluation either returns a verdict (`Except.ok b`,
with `b = true` meaning "illegal" exactly as `is_action_illegal` does) or an
exception (`Except.error "AttributeError"` / `Except.error "TypeError"`).
-/

/-- The fragment of Python values the guardrail manipulates: strings,
integers, `None`, lists and string-keyed dicts (YAML mappings). -/
inductive PyVal where
  | str (s : String)
  | int (n : Int)
  | none
  | list (xs : List PyVal)
  | dict (entries : List (String × PyVal))

/-- Python truthiness (`bool(v)`) for the embedded values: empty string,
zero, `None`, empty list and empty dict are falsy. -/
def pyTruthy : PyVal → Bool
  | PyVal.str s => s != ""
  | PyVal.int n => n != 0
  | PyVal.none => false
  | PyVal.list xs => !xs.isEmpty
  | PyVal.dict es => !es.isEmpty

/-- Raw lookup in a string-keyed dict (first matching entry). -/
def dictGet (d : List (String × PyVal)) (k : String) : Option PyVal :=
  (d.find? (fun e => e.1 == k)).map (fun e => e.2)

/-- Python `d.get(k)` on a dict: `None` when the key is absent. -/
def pyGet (d : List (String × PyVal)) (k : String) : PyVal :=
  (dictGet d k).getD PyVal.none

/-- Python `d.get(k, default)` on a dict. -/
def pyGetD (d : List (String × PyVal)) (k : String) (dflt : PyVal) : PyVal :=
  (dictGet d k).getD dflt

/-- Python `v.get(k)` where `v` is an arbitrary value: raises
`AttributeError` unless `v` is a dict. -/
def pyGetAttr (v : PyVal) (k : String) : Except String PyVal :=
  match v with
  | PyVal.dict es => pure (pyGet es k)
  | _ => throw "AttributeError"

/-- Python `v.get(k, default)` where `v` is an arbitrary value. -/
def pyGetAttrD (v : PyVal) (k : String) (dflt : PyVal) : Except String PyVal :=
  match v with
  | PyVal.dict es => pure (pyGetD es k dflt)
  | _ => throw "AttributeError"

/-- Python `==` between an embedded value and a string (cross-type
comparison is `False`, never an error). -/
def pyEqString (v : PyVal) (s : String) : Bool :=
  match v with
  | PyVal.str t => t == s
  | _ => false

/-- Python `s.upper()` restricted to the character-wise (ASCII) case. -/
def strUpper (s : String) : String :=
  ⟨s.data.map Char.toUpper⟩

/-- Python `s.endswith(suf)` (exact, case-sensitive suffix test;
`s.endswith("")` is `True`). -/
def strEndsWith (s suf : String) : Bool :=
  suf.data.isSuffixOf s.data

/-- Python `s.startswith(pre)` (exact, case-sensitive prefix test;
`s.startswith("")` is `True`). -/
def strStartsWith (s pre : String) : Bool :=
  pre.data.isPrefixOf s.data

/-- Bool-valued infix test on character lists: `sub` occurs contiguously
inside the second list. -/
def listContains (sub : List Char) : List Char → Bool
  | [] => sub.isEmpty
  | c :: cs => sub.isPrefixOf (c :: cs) || listContains sub cs

/-- Python `sub in s` for strings: substring containment. -/
def strContainsSub (s sub : String) : Bool :=
  listContains sub.data s.data

/-- Python `v.upper()` on an arbitrary value: `AttributeError` unless `v`
is a string. -/
def pyUpper (v : PyVal) : Except String String :=
  match v with
  | PyVal.str s => pure (strUpper s)
  | _ => throw "AttributeError"

/-- Python `v.endswith(e)`: `AttributeError` when `v` is not a string,
`TypeError` when the argument is not a string. -/
def pyEndsWith (v e : PyVal) : Except String Bool :=
  match v with
  | PyVal.str s =>
    match e with
    | PyVal.str t => pure (strEndsWith s t)
    | _ => throw "TypeError"
  | _ => throw "AttributeError"

/-- Python `v.startswith(p)`: errors as in `pyEndsWith`. -/
def pyStartsWith (v p : PyVal) : Except String Bool :=
  match v with
  | PyVal.str s =>
    match p with
    | PyVal.str t => pure (strStartsWith s t)
    | _ => throw "AttributeError"
  | _ => throw "AttributeError"

/-- Python `k in s` where `s` is a string: `TypeError` unless `k` is a
string, otherwise substring containment. -/
def pyInStr (k : PyVal) (s : String) : Except String Bool :=
  match k with
  | PyVal.str t => pure (strContainsSub s t)
  | _ => throw "TypeError"

/-- Python iteration over a value (as used by generator expressions):
lists yield elements, dicts yield their keys, strings yield their
characters; anything else raises `TypeError`. -/
def pyIterate (v : PyVal) : Except String (List PyVal) :=
  match v with
  | PyVal.list xs => pure xs
  | PyVal.dict es => pure (es.map (fun e => PyVal.str e.1))
  | PyVal.str s => pure (s.data.map (fun c => PyVal.str (String.singleton c)))
  | _ => throw "TypeError"

/-- Python `any(f(x) for x in xs)`: lazy left-to-right with short-circuit,
propagating the first exception raised by the body. -/
def pyAnyM (f : PyVal → Except String Bool) : List PyVal → Except String Bool
  | [] => pure false
  | x :: xs => do
    let b ← f x
    if b then pure true else pyAnyM f xs

/-- Embeds `ActionGuardrail._validate_file_reader(parameters, rules)`
(src/guardrails/action_guardrail.py lines 75-94). -/
def validate_file_reader (parameters rules : PyVal) : Except String Bool := do
  let filepath ← pyGetAttr parameters "path"
  if !(pyTruthy filepath) then
    pure true
  else do
    let disallowed_extensions ← pyGetAttrD rules "disallowed_extensions" (PyVal.list [])
    let exts ← pyIterate disallowed_extensions
    let hitExt ← pyAnyM (fun e => pyEndsWith filepath e) exts
    if hitExt then
      pure true
    else do
      let allowed_paths ← pyGetAttrD rules "allowed_paths" (PyVal.list [])
      let ps ← pyIterate allowed_paths
      let hitPath ← pyAnyM (fun p => pyStartsWith filepath p) ps
      if !hitPath then pure true else pure false

/-- Embeds `ActionGuardrail._validate_database_query(parameters, rules)`
(src/guardrails/action_guardrail.py lines 96-109).  Note the source
uppercases only the query (`parameters.get("query", "").upper()`); the
stored keywords are matched verbatim. -/
def validate_database_query (parameters rules : PyVal) : Except String Bool := do
  let qv ← pyGetAttrD parameters "query" (PyVal.str "")
  let query ← pyUpper qv
  if query == "" then
    pure true
  else do
    let forbidden_keywords ← pyGetAttrD rules "forbidden_keywords" (PyVal.list [])
    let kws ← pyIterate forbidden_keywords
    let hitKw ← pyAnyM (fun k => pyInStr k query) kws
    if hitKw then pure true else pure false

/-- The loaded policy document (`self.rules`).  The source only ever reads
the keys `allowed_tools` (a sequence of tool-name strings, §6 of the
configuration surface) and `tool_rules` (a mapping from tool name to a
dynamically shaped rule record, kept as `PyVal`). -/
structure Policy where
  allowed_tools : List String
  tool_rules : List (String × PyVal)

/-- The policy corresponding to `self.rules = {}` in the source:
`{}.get("allowed_tools", [])` is `[]` and `{}.get("tool_rules", {})` is
`{}`. -/
def emptyPolicy : Policy := ⟨[], []⟩

/-- Python `d.get(k)` where `d` is the `tool_rules` dict and the key is the
(dynamically typed) tool name. -/
def pyDictGetKey (entries : List (String × PyVal)) (k : PyVal) : Option PyVal :=
  (entries.find? (fun e => pyEqString k e.1)).map (fun e => e.2)

/-- Embeds `ActionGuardrail.is_action_illegal(action)`
(src/guardrails/action_guardrail.py lines 30-73), with `policy` standing
for the loaded `self.rules`.  Result `Except.ok true` means the action is
illegal, `Except.ok false` legal, `Except.error _` an escaped Python
exception. -/
def is_action_illegal (policy : Policy) (action : List (String × PyVal)) :
    Except String Bool :=
  if !(pyTruthy (pyGet action "tool")) then
    pure true
  else if !(policy.allowed_tools.any (fun s => pyEqString (pyGet action "tool") s)) then
    pure true
  else
    match pyDictGetKey policy.tool_rules (pyGet action "tool") with
    | Option.none => pure false
    | Option.some r =>
      if !(pyTruthy r) then
        pure false
      else if pyEqString (pyGet action "tool") "file_reader" then
        validate_file_reader (pyGetD action "parameters" (PyVal.dict [])) r
      else if pyEqString (pyGet action "tool") "database_query" then
        validate_database_query (pyGetD action "parameters" (PyVal.dict [])) r
      else
        pure false

/-- The possible outcomes of opening and parsing `config/rules.yaml` in
`ActionGuardrail.__init__`. -/
inductive RulesSource where
  | ok (p : Policy)
  | fileNotFound
  | yamlError (msg : String)

/-- Embeds `ActionGuardrail.__init__` (src/guardrails/action_guardrail.py
lines 19-28): a successful parse installs the parsed policy; a
`FileNotFoundError` or `yaml.YAMLError` is caught and `self.rules = {}`
is installed instead. -/
def loadRules : RulesSource → Policy
  | RulesSource.ok p => p
  | RulesSource.fileNotFound => emptyPolicy
  | RulesSource.yamlError _ => emptyPolicy

/-- The guardrail object: its only decision-relevant state is the loaded
policy (`self.rules`). -/
structure ActionGuardrail where
  rules : Policy

/-- The method `is_action_illegal` as a state transformer on the guardrail
object: the body of the Python method contains no assignment to `self`,
so the object state is returned unchanged alongside the verdict. -/
def is_action_illegal_method (g : ActionGuardrail) (action : List (String × PyVal)) :
    ActionGuardrail × Except String Bool :=
  (g, is_action_illegal g.rules action)

/-- Convenience constructor for the file-reader rule record
`{disallowed_extensions: exts, allowed_paths: paths}`. -/
def fileReaderRules (exts paths : List String) : PyVal :=
  PyVal.dict [("disallowed_extensions", PyVal.list (exts.map PyVal.str)),
              ("allowed_paths", PyVal.list (paths.map PyVal.str))]

/-- Convenience constructor for the database-query rule record
`{forbidden_keywords: kws}`. -/
def dbQueryRules (kws : List String) : PyVal :=
  PyVal.dict [("forbidden_keywords", PyVal.list (kws.map PyVal.str))]

/-- Reference predicate for the file-reader validator, written from the
spec (§4.3): legal iff the path is present and non-empty, ends with no
disallowed extension (exact case-sensitive suffix), and starts with at
least one allowed prefix (exact prefix; empty prefix set denies all). -/
def fileReaderLegalSpec (exts paths : List String) (p : Option String) : Bool :=
  match p with
  | Option.none => false
  | Option.some f =>
    (f != "") && (exts.all (fun e => !(strEndsWith f e)))
      && (paths.any (fun q => strStartsWith f q))

/-- The database-query legality predicate exactly as claim C2 states it:
legal iff the query is present and non-empty and no stored keyword occurs
as a substring case-insensitively **with respect to the stored keyword as
well as the query** (both sides uppercased). -/
def dbQueryLegalClaim (kws : List String) (q : Option String) : Bool :=
  match q with
  | Option.none => false
  | Option.some s =>
    (s != "") && (kws.all (fun k => !(strContainsSub (strUpper s) (strUpper k))))

/-- The database-query legality predicate the source actually computes:
legal iff the query is present and non-empty and no stored keyword occurs
verbatim (case-sensitively) as a substring of the **uppercased** query. -/
def dbQueryLegalAmended (kws : List String) (q : Option String) : Bool :=
  match q with
  | Option.none => false
  | Option.some s =>
    (s != "") && (kws.all (fun k => !(strContainsSub (strUpper s) k)))

/-! ### Helper lemmas -/

theorem pyAnyM_map_str (f : PyVal → Except String Bool) (g : String → Bool)
    (hf : ∀ s, f (PyVal.str s) = pure (g s)) :
    ∀ l : List String, pyAnyM f (l.map PyVal.str) = pure (l.any g) := by
  intro l
  induction l with
  | nil => rfl
  | cons x xs ih =>
    simp only [List.map_cons, pyAnyM, hf x, ih, pure_bind, List.any_cons]
    cases g x <;> simp

theorem list_all_not {α : Type} (p : α → Bool) (l : List α) :
    l.all (fun a => !(p a)) = !(l.any p) := by
  induction l with
  | nil => rfl
  | cons x xs ih => simp [List.all_cons, List.any_cons, ih, Bool.not_or]

theorem strUpper_empty_iff (s : String) : strUpper s = "" ↔ s = "" := by
  rw [String.ext_iff, String.ext_iff]
  show s.data.map Char.toUpper = "".data ↔ s.data = "".data
  have hnil : "".data = [] := rfl
  rw [hnil]
  simp

/-! ### Claim theorems -/

/-- C1: Fail-closed default — when the policy source is missing or
malformed, construction substitutes the empty policy
(`allowed_tools = {}`, `tool_rules = {}`) without raising, and under that
empty policy every action evaluates to illegal. -/
theorem loadRules_failClosed (src : RulesSource) (action : List (String × PyVal))
    (h : src = RulesSource.fileNotFound ∨ ∃ m, src = RulesSource.yamlError m) :
    loadRules src = emptyPolicy ∧
      is_action_illegal (loadRules src) action = Except.ok true := by
  have hp : loadRules src = emptyPolicy := by
    rcases h with h | ⟨m, h⟩ <;> simp [h, loadRules]
  refine ⟨hp, ?_⟩
  rw [hp]
  by_cases ht : pyTruthy (pyGet action "tool") <;>
    simp [is_action_illegal, emptyPolicy, ht, pure, Except.pure]

/-- Witness for C1 at a concrete missing-file source and action. -/
theorem loadRules_failClosed_witness :
    loadRules RulesSource.fileNotFound = emptyPolicy ∧
      is_action_illegal (loadRules RulesSource.fileNotFound)
        [("tool", PyVal.str "web_search")] = Except.ok true :=
  loadRules_failClosed RulesSource.fileNotFound
    [("tool", PyVal.str "web_search")] (Or.inl rfl)

/-- C5: an action whose tool is not a member of `allowed_tools` (Python
`tool_name not in allowed_tools`, i.e. no allow-list entry compares equal
to the tool value) is illegal regardless of parameters and of any
`tool_rules` entry. -/
theorem notAllowListed_illegal (policy : Policy) (action : List (String × PyVal))
    (h : policy.allowed_tools.any (fun s => pyEqString (pyGet action "tool") s) = false) :
    is_action_illegal policy action = Except.ok true := by
  by_cases ht : pyTruthy (pyGet action "tool") <;>
    simp [is_action_illegal, ht, h, pure, Except.pure]

/-- Witness for C5: `shell_executor` against a policy allowing only
`web_search`, with a `tool_rules` entry present for it. -/
theorem notAllowListed_illegal_witness :
    is_action_illegal ⟨["web_search"], [("shell_executor", PyVal.dict [("x", PyVal.int 1)])]⟩
      [("tool", PyVal.str "shell_executor"),
       ("parameters", PyVal.dict [("command", PyVal.str "rm -rf /")])] = Except.ok true :=
  notAllowListed_illegal _ _ (by decide)

/-- C6: an action whose `tool` entry is absent or the empty string is
illegal for every policy (so the verdict is independent of the allow-list
and of `tool_rules`). -/
theorem missingTool_illegal (policy : Policy) (action : List (String × PyVal))
    (h : dictGet action "tool" = Option.none ∨
         dictGet action "tool" = Option.some (PyVal.str "")) :
    is_action_illegal policy action = Except.ok true := by
  have ht : pyTruthy (pyGet action "tool") = false := by
    rcases h with h | h <;> simp [pyGet, h, pyTruthy]
  simp [is_action_illegal, ht, pure, Except.pure]

/-- Witness for C6: an action with no `tool` key, against a permissive
policy. -/
theorem missingTool_illegal_witness :
    is_action_illegal ⟨["file_reader"], []⟩
      [("parameters", PyVal.dict [("path", PyVal.str "/data/public/report.txt")])]
      = Except.ok true :=
  missingTool_illegal _ _ (Or.inl rfl)

/-- C9: evaluation is deterministic and leaves the guardrail state (the
loaded rules) unchanged: the method returns the object unchanged, and a
second evaluation on the state produced by the first yields the same
verdict. -/
theorem evaluate_idempotent_pure (g : ActionGuardrail) (action : List (String × PyVal)) :
    (is_action_illegal_method g action).1 = g ∧
      (is_action_illegal_method (is_action_illegal_method g action).1 action).2 =
        (is_action_illegal_method g action).2 :=
  ⟨rfl, rfl⟩

/-- C3 (refuted by the code): an action dictionary with a parameter value
of unexpected shape — an integer `path` — makes `is_action_illegal` raise
`AttributeError` (from `filepath.startswith`) instead of returning a
boolean verdict. -/
theorem evaluate_raises_onIntPath :
    is_action_illegal
      ⟨["file_reader"],
       [("file_reader", PyVal.dict [("allowed_paths", PyVal.list [PyVal.str "/data"])])]⟩
      [("tool", PyVal.str "file_reader"),
       ("parameters", PyVal.dict [("path", PyVal.int 5)])]
      = Except.error "AttributeError" := by
  rfl

/-- C7: an action whose (non-empty) tool is allow-listed and has no
`tool_rules` entry is legal, for every parameters value. -/
theorem noRules_legal (policy : Policy) (action : List (String × PyVal)) (t : String)
    (h1 : pyGet action "tool" = PyVal.str t) (h2 : t ≠ "")
    (h3 : t ∈ policy.allowed_tools)
    (h4 : pyDictGetKey policy.tool_rules (PyVal.str t) = Option.none) :
    is_action_illegal policy action = Except.ok false := by
  have ht : pyTruthy (PyVal.str t) = true := by
    simp [pyTruthy, h2]
  have ha : (policy.allowed_tools.any fun s => pyEqString (PyVal.str t) s) = true :=
    List.any_eq_true.mpr ⟨t, h3, by simp [pyEqString]⟩
  simp [is_action_illegal, ht, ha, h1, h4, pure, Except.pure]

/-- Witness for C7: allow-listed `web_search` with no rules entry and
arbitrary parameters. -/
theorem noRules_legal_witness :
    is_action_illegal ⟨["web_search", "file_reader"],
        [("file_reader", PyVal.dict [("allowed_paths", PyVal.list [PyVal.str "/data"])])]⟩
      [("tool", PyVal.str "web_search"),
       ("parameters", PyVal.dict [("query", PyVal.str "latest AI news")])]
      = Except.ok false :=
  noRules_legal _ _ "web_search" rfl (by decide) (by decide) rfl

/-- C8: an action whose (non-empty) tool is allow-listed and has a truthy
`tool_rules` entry, but is neither `file_reader` nor `database_query`, is
legal — the rules entry is inert. -/
theorem unknownKind_inert_legal (policy : Policy) (action : List (String × PyVal))
    (t : String) (r : PyVal)
    (h1 : pyGet action "tool" = PyVal.str t) (h2 : t ≠ "")
    (h3 : t ∈ policy.allowed_tools)
    (h4 : pyDictGetKey policy.tool_rules (PyVal.str t) = Option.some r)
    (h5 : pyTruthy r = true)
    (h6 : t ≠ "file_reader") (h7 : t ≠ "database_query") :
    is_action_illegal policy action = Except.ok false := by
  have ht : pyTruthy (PyVal.str t) = true := by
    simp [pyTruthy, h2]
  have ha : (policy.allowed_tools.any fun s => pyEqString (PyVal.str t) s) = true :=
    List.any_eq_true.mpr ⟨t, h3, by simp [pyEqString]⟩
  simp [is_action_illegal, ht, ha, h1, h3, h4, h5, pyEqString, h6, h7, pure, Except.pure]

/-- Witness for C8: allow-listed `web_search` carrying a non-empty rules
record that no validator consumes. -/
theorem unknownKind_inert_legal_witness :
    is_action_illegal ⟨["web_search"],
        [("web_search", PyVal.dict [("max_results", PyVal.int 3)])]⟩
      [("tool", PyVal.str "web_search"),
       ("parameters", PyVal.dict [])]
      = Except.ok false :=
  unknownKind_inert_legal _ _ "web_search" (PyVal.dict [("max_results", PyVal.int 3)])
    rfl (by decide) (by decide) rfl rfl (by decide) (by decide)

/-- C10: an allow-listed tool whose `tool_rules` entry exists but is falsy
(e.g. the empty mapping) is treated like a tool with no rules entry: the
verdict is legal for every parameters value, without dispatching any
validator — in particular a `file_reader` action with no `path` parameter
is still legal under an empty rule record. -/
theorem falsyRules_legal (policy : Policy) (action : List (String × PyVal))
    (t : String) (r : PyVal)
    (h1 : pyGet action "tool" = PyVal.str t) (h2 : t ≠ "")
    (h3 : t ∈ policy.allowed_tools)
    (h4 : pyDictGetKey policy.tool_rules (PyVal.str t) = Option.some r)
    (h5 : pyTruthy r = false) :
    is_action_illegal policy action = Except.ok false := by
  have ht : pyTruthy (PyVal.str t) = true := by
    simp [pyTruthy, h2]
  have ha : (policy.allowed_tools.any fun s => pyEqString (PyVal.str t) s) = true :=
    List.any_eq_true.mpr ⟨t, h3, by simp [pyEqString]⟩
  simp [is_action_illegal, ht, ha, h1, h4, h5, pure, Except.pure]

/-- Witness for C10: `file_reader` with an empty rule record and a missing
`path` parameter is legal. -/
theorem falsyRules_legal_witness :
    is_action_illegal ⟨["file_reader"], [("file_reader", PyVal.dict [])]⟩
      [("tool", PyVal.str "file_reader"),
       ("parameters", PyVal.dict [])]
      = Except.ok false :=
  falsyRules_legal _ _ "file_reader" (PyVal.dict [])
    rfl (by decide) (by decide) rfl rfl

theorem pure_ok_iff (b c : Bool) : (pure b : Except String Bool) = Except.ok c ↔ b = c := by
  constructor
  · intro h
    exact Except.ok.inj h
  · intro h
    rw [h]; rfl

/-- C4: reference definition of the file-reader validator — for every
`FileReaderRules` record and every parameters map whose `path` entry is a
string (or absent), the verdict is legal iff the path is present,
non-empty, ends with no disallowed extension (exact case-sensitive suffix
match) and starts with at least one allowed prefix (exact match; the
empty prefix set denies everything). -/
theorem fileReader_legal_iff (exts paths : List String) (params : List (String × PyVal))
    (pOpt : Option String)
    (hp : dictGet params "path" = Option.map PyVal.str pOpt) :
    (validate_file_reader (PyVal.dict params) (fileReaderRules exts paths) = Except.ok false)
      ↔ fileReaderLegalSpec exts paths pOpt = true := by
  cases pOpt with
  | none =>
    simp [validate_file_reader, pyGetAttr, pyGet, hp, pyTruthy, fileReaderLegalSpec,
      pure_ok_iff]
  | some f =>
    have hv : pyGet params "path" = PyVal.str f := by simp [pyGet, hp]
    by_cases hf : f = ""
    · subst hf
      simp [validate_file_reader, pyGetAttr, hv, pyTruthy, fileReaderLegalSpec,
        pure_ok_iff]
    · have hext := pyAnyM_map_str (fun e => pyEndsWith (PyVal.str f) e)
        (fun e => strEndsWith f e) (fun s => rfl) exts
      have hpth := pyAnyM_map_str (fun p => pyStartsWith (PyVal.str f) p)
        (fun q => strStartsWith f q) (fun s => rfl) paths
      cases hA : exts.any (fun e => strEndsWith f e) <;>
        cases hB : paths.any (fun q => strStartsWith f q) <;>
        simp [validate_file_reader, pyGetAttr, hv, pyTruthy, hf, fileReaderRules,
          pyGetAttrD, pyGetD, dictGet, pyIterate, hext, hpth, hA, hB,
          fileReaderLegalSpec, list_all_not, pure_ok_iff]

/-- Witness for C4: the spec's own example `/data/public/report.txt` under
`{disallowed_extensions: [".yaml"], allowed_paths: ["/data/public"]}` is
legal. -/
theorem fileReader_legal_iff_witness :
    validate_file_reader
      (PyVal.dict [("path", PyVal.str "/data/public/report.txt")])
      (fileReaderRules [".yaml"] ["/data/public"]) = Except.ok false :=
  (fileReader_legal_iff [".yaml"] ["/data/public"]
    [("path", PyVal.str "/data/public/report.txt")]
    (Option.some "/data/public/report.txt") rfl).mpr (by decide)

/-- C2 counterexample: with stored keyword `"drop"` (lowercase) and query
`"drop table"`, the source validator returns **legal** (the query is
uppercased but the stored keyword is matched verbatim, so `"drop"` cannot
occur in `"DROP TABLE"`), while the claimed reference definition —
case-insensitive with respect to the stored keyword as well — demands
illegal.  Hence the claimed iff fails at this input. -/
theorem dbQuery_claim_counterexample :
    validate_database_query (PyVal.dict [("query", PyVal.str "drop table")])
        (dbQueryRules ["drop"]) = Except.ok false ∧
      dbQueryLegalClaim ["drop"] (Option.some "drop table") = false := by
  constructor
  · rfl
  · rfl

/-- C2 (amended): reference definition of the database-query validator —
for every `DatabaseQueryRules` record and every parameters map whose
`query` entry is a string (or absent), the verdict is legal iff the query
is present and non-empty and no stored keyword occurs **verbatim**
(case-sensitively) as a substring of the **uppercased** query. -/
theorem dbQuery_legal_iff (kws : List String) (params : List (String × PyVal))
    (qOpt : Option String)
    (hq : dictGet params "query" = Option.map PyVal.str qOpt) :
    (validate_database_query (PyVal.dict params) (dbQueryRules kws) = Except.ok false)
      ↔ dbQueryLegalAmended kws qOpt = true := by
  cases qOpt with
  | none =>
    simp [validate_database_query, pyGetAttrD, pyGetD, hq, pyUpper, strUpper,
      dbQueryLegalAmended, pure_ok_iff]
  | some s =>
    have hv : pyGetD params "query" (PyVal.str "") = PyVal.str s := by
      simp [pyGetD, hq]
    by_cases hs : s = ""
    · subst hs
      simp [validate_database_query, pyGetAttrD, hv, pyUpper, strUpper,
        dbQueryLegalAmended, pure_ok_iff]
    · have hne : strUpper s ≠ "" := fun h => hs ((strUpper_empty_iff s).mp h)
      have hbeq : (strUpper s == "") = false := beq_eq_false_iff_ne.mpr hne
      have hkw := pyAnyM_map_str (fun k => pyInStr k (strUpper s))
        (fun k => strContainsSub (strUpper s) k) (fun t => rfl) kws
      simp only [pyGetD, dictGet] at hv
      cases hK : kws.any (fun k => strContainsSub (strUpper s) k) <;>
        simp [validate_database_query, pyGetAttrD, pyGetD, dictGet, hv, pyUpper,
          dbQueryRules, pyIterate, hkw, hK, dbQueryLegalAmended, list_all_not,
          hs, hne, hbeq, pure_ok_iff]

/-- Witness for C2 (amended): the spec's example `SELECT * FROM users`
against keywords `DROP`, `DELETE` is legal. -/
theorem dbQuery_legal_iff_witness :
    validate_database_query (PyVal.dict [("query", PyVal.str "SELECT * FROM users")])
      (dbQueryRules ["DROP", "DELETE"]) = Except.ok false :=
  (dbQuery_legal_iff ["DROP", "DELETE"]
    [("query", PyVal.str "SELECT * FROM users")]
    (Option.some "SELECT * FROM users") rfl).mpr (by decide)
